import Mathlib

/-!
Verification of the logrange server configuration model
(`src/server/config.go`): the `Config` entity, its default factory,
the override-merge algorithm (`Apply`), the file loader
(`ReadConfigFromFile`) and the host-registry accessor methods.
-/

namespace Logrange

/-- Modelled from the spec: the transport endpoint descriptor
(`transport.Config` from the external `range` package, not part of this
repository's sources). The spec describes it as "a struct describing how
an RPC interface is reached (minimally, a listen address)" with possibly
further sub-fields; we model the listen address plus one further boolean
sub-field so that whole-struct replacement is distinguishable from
sub-field-level merging. Its zero value (`transport.Config{}`, every
sub-field zero/empty) is `TransportConfig.empty` below. -/
structure TransportConfig where
  ListenAddr : String
  TlsEnabled : Bool
  deriving DecidableEq, Repr

/-- The all-zero transport descriptor, `transport.Config{}` in Go:
every sub-field takes its zero value. `reflect.DeepEqual` on this plain
struct coincides with structural equality. -/
def TransportConfig.empty : TransportConfig :=
  { ListenAddr := "", TlsEnabled := false }

/-- Modelled from the spec: the local host descriptor (`model.HostInfo`
from the external cluster package), "a descriptor whose RPC address" is a
listen-address string. -/
structure HostInfo where
  RpcAddr : String
  deriving DecidableEq, Repr

/-- The `Config` struct of `src/server/config.go`. `cluster.HostId` is an
unsigned integer identifier (modelled as `Nat`); the two `...Sec` fields
are Go `int` (modelled as `Int`). -/
@[ext]
structure Config where
  JournalsDir : String
  HostHostId : Nat
  HostLeaseTTLSec : Int
  HostRegisterTimeoutSec : Int
  PublicApiRpc : TransportConfig
  PrivateApiRpc : TransportConfig
  deriving DecidableEq, Repr

/-- `GetDefaultConfig`: starts from `new(Config)` (all fields zero) and
sets `JournalsDir`, both listen addresses and `HostLeaseTTLSec`. -/
def GetDefaultConfig : Config :=
  { JournalsDir := "/opt/logrange/db/"
    HostHostId := 0
    HostLeaseTTLSec := 5
    HostRegisterTimeoutSec := 0
    PublicApiRpc := { TransportConfig.empty with ListenAddr := "127.0.0.1:9966" }
    PrivateApiRpc := { TransportConfig.empty with ListenAddr := "127.0.0.1:9967" } }

/-- `time.Second` in Go's `time` package: one second in nanoseconds
(`time.Duration` is an `int64` count of nanoseconds). -/
def timeSecond : Int := 1000000000

/-- Two's-complement reduction into `int64`: Go's signed arithmetic is
defined modulo 2^64, so a product such as
`time.Duration(x) * time.Second` wraps into the interval from `-2^63`
to `2^63 - 1`. The literals are `2^63` and `2^64`. -/
def wrapInt64 (n : Int) : Int :=
  (n + 9223372036854775808) % 18446744073709551616 - 9223372036854775808

/-- `func (c *Config) HostId() cluster.HostId`. -/
def Config.HostId (c : Config) : Nat :=
  c.HostHostId

/-- `func (c *Config) Localhost() model.HostInfo`. -/
def Config.Localhost (c : Config) : HostInfo :=
  { RpcAddr := c.PrivateApiRpc.ListenAddr }

/-- `func (c *Config) LeaseTTL() time.Duration`:
`time.Duration(c.HostLeaseTTLSec) * time.Second`, an `int64`
multiplication that wraps on overflow. The conversion
`time.Duration(c.HostLeaseTTLSec)` itself is the identity on every
representable Go `int` (64-bit). -/
def Config.LeaseTTL (c : Config) : Int :=
  wrapInt64 (c.HostLeaseTTLSec * timeSecond)

/-- `func (c *Config) RegisterTimeout() time.Duration`:
`time.Duration(c.HostRegisterTimeoutSec) * time.Second`, the same
wrapping `int64` multiplication. -/
def Config.RegisterTimeout (c : Config) : Int :=
  wrapInt64 (c.HostRegisterTimeoutSec * timeSecond)

/-- First conditional assignment of the `Apply` body: when
`len(cfg.JournalsDir) > 0`, set `c.JournalsDir` to `cfg.JournalsDir`. -/
def applyJournalsDir (c cfg : Config) : Config :=
  if cfg.JournalsDir.length > 0 then { c with JournalsDir := cfg.JournalsDir } else c

/-- Second conditional assignment: when `cfg.HostHostId > 0`, set
`c.HostHostId` to `cfg.HostHostId`. -/
def applyHostHostId (c cfg : Config) : Config :=
  if cfg.HostHostId > 0 then { c with HostHostId := cfg.HostHostId } else c

/-- Third conditional assignment: when `cfg.PublicApiRpc` is not
`reflect.DeepEqual` to the zero transport struct, set `c.PublicApiRpc`
to `cfg.PublicApiRpc`. -/
def applyPublicApiRpc (c cfg : Config) : Config :=
  if ¬(cfg.PublicApiRpc = TransportConfig.empty) then { c with PublicApiRpc := cfg.PublicApiRpc } else c

/-- Fourth conditional assignment, same for `PrivateApiRpc`. -/
def applyPrivateApiRpc (c cfg : Config) : Config :=
  if ¬(cfg.PrivateApiRpc = TransportConfig.empty) then { c with PrivateApiRpc := cfg.PrivateApiRpc } else c

/-- Fifth conditional assignment: when `cfg.HostLeaseTTLSec > 0`, set
`c.HostLeaseTTLSec` to `cfg.HostLeaseTTLSec`. -/
def applyHostLeaseTTLSec (c cfg : Config) : Config :=
  if cfg.HostLeaseTTLSec > 0 then { c with HostLeaseTTLSec := cfg.HostLeaseTTLSec } else c

/-- Sixth conditional assignment: when `cfg.HostRegisterTimeoutSec > 0`,
set `c.HostRegisterTimeoutSec` to `cfg.HostRegisterTimeoutSec`. -/
def applyHostRegisterTimeoutSec (c cfg : Config) : Config :=
  if cfg.HostRegisterTimeoutSec > 0 then { c with HostRegisterTimeoutSec := cfg.HostRegisterTimeoutSec } else c

/-- `func (c *Config) Apply(cfg *Config)`: the merge algorithm, with the
destination passed as `c` and returned (Go mutates `c` in place); the
nullable pointer argument is an `Option`. The six conditional
assignments of the Go body run in source order. -/
def Config.Apply (c : Config) (cfg : Option Config) : Config :=
  match cfg with
  | none => c
  | some cfg =>
    applyHostRegisterTimeoutSec
      (applyHostLeaseTTLSec
        (applyPrivateApiRpc
          (applyPublicApiRpc
            (applyHostHostId
              (applyJournalsDir c cfg) cfg) cfg) cfg) cfg) cfg

/-- Projection of the `JournalsDir` assignment step at its own field. -/
@[simp]
theorem applyJournalsDir_JournalsDir (c cfg : Config) :
    (applyJournalsDir c cfg).JournalsDir = if cfg.JournalsDir.length > 0 then cfg.JournalsDir else c.JournalsDir := by
  unfold applyJournalsDir
  split_ifs <;> rfl

/-- The `JournalsDir` assignment step leaves `HostHostId` unchanged. -/
@[simp]
theorem applyJournalsDir_HostHostId (c cfg : Config) :
    (applyJournalsDir c cfg).HostHostId = c.HostHostId := by
  unfold applyJournalsDir
  split_ifs <;> rfl

/-- The `JournalsDir` assignment step leaves `PublicApiRpc` unchanged. -/
@[simp]
theorem applyJournalsDir_PublicApiRpc (c cfg : Config) :
    (applyJournalsDir c cfg).PublicApiRpc = c.PublicApiRpc := by
  unfold applyJournalsDir
  split_ifs <;> rfl

/-- The `JournalsDir` assignment step leaves `PrivateApiRpc` unchanged. -/
@[simp]
theorem applyJournalsDir_PrivateApiRpc (c cfg : Config) :
    (applyJournalsDir c cfg).PrivateApiRpc = c.PrivateApiRpc := by
  unfold applyJournalsDir
  split_ifs <;> rfl

/-- The `JournalsDir` assignment step leaves `HostLeaseTTLSec` unchanged. -/
@[simp]
theorem applyJournalsDir_HostLeaseTTLSec (c cfg : Config) :
    (applyJournalsDir c cfg).HostLeaseTTLSec = c.HostLeaseTTLSec := by
  unfold applyJournalsDir
  split_ifs <;> rfl

/-- The `JournalsDir` assignment step leaves `HostRegisterTimeoutSec` unchanged. -/
@[simp]
theorem applyJournalsDir_HostRegisterTimeoutSec (c cfg : Config) :
    (applyJournalsDir c cfg).HostRegisterTimeoutSec = c.HostRegisterTimeoutSec := by
  unfold applyJournalsDir
  split_ifs <;> rfl

/-- The `HostHostId` assignment step leaves `JournalsDir` unchanged. -/
@[simp]
theorem applyHostHostId_JournalsDir (c cfg : Config) :
    (applyHostHostId c cfg).JournalsDir = c.JournalsDir := by
  unfold applyHostHostId
  split_ifs <;> rfl

/-- Projection of the `HostHostId` assignment step at its own field. -/
@[simp]
theorem applyHostHostId_HostHostId (c cfg : Config) :
    (applyHostHostId c cfg).HostHostId = if cfg.HostHostId > 0 then cfg.HostHostId else c.HostHostId := by
  unfold applyHostHostId
  split_ifs <;> rfl

/-- The `HostHostId` assignment step leaves `PublicApiRpc` unchanged. -/
@[simp]
theorem applyHostHostId_PublicApiRpc (c cfg : Config) :
    (applyHostHostId c cfg).PublicApiRpc = c.PublicApiRpc := by
  unfold applyHostHostId
  split_ifs <;> rfl

/-- The `HostHostId` assignment step leaves `PrivateApiRpc` unchanged. -/
@[simp]
theorem applyHostHostId_PrivateApiRpc (c cfg : Config) :
    (applyHostHostId c cfg).PrivateApiRpc = c.PrivateApiRpc := by
  unfold applyHostHostId
  split_ifs <;> rfl

/-- The `HostHostId` assignment step leaves `HostLeaseTTLSec` unchanged. -/
@[simp]
theorem applyHostHostId_HostLeaseTTLSec (c cfg : Config) :
    (applyHostHostId c cfg).HostLeaseTTLSec = c.HostLeaseTTLSec := by
  unfold applyHostHostId
  split_ifs <;> rfl

/-- The `HostHostId` assignment step leaves `HostRegisterTimeoutSec` unchanged. -/
@[simp]
theorem applyHostHostId_HostRegisterTimeoutSec (c cfg : Config) :
    (applyHostHostId c cfg).HostRegisterTimeoutSec = c.HostRegisterTimeoutSec := by
  unfold applyHostHostId
  split_ifs <;> rfl

/-- The `PublicApiRpc` assignment step leaves `JournalsDir` unchanged. -/
@[simp]
theorem applyPublicApiRpc_JournalsDir (c cfg : Config) :
    (applyPublicApiRpc c cfg).JournalsDir = c.JournalsDir := by
  unfold applyPublicApiRpc
  split_ifs <;> rfl

/-- The `PublicApiRpc` assignment step leaves `HostHostId` unchanged. -/
@[simp]
theorem applyPublicApiRpc_HostHostId (c cfg : Config) :
    (applyPublicApiRpc c cfg).HostHostId = c.HostHostId := by
  unfold applyPublicApiRpc
  split_ifs <;> rfl

/-- Projection of the `PublicApiRpc` assignment step at its own field. -/
@[simp]
theorem applyPublicApiRpc_PublicApiRpc (c cfg : Config) :
    (applyPublicApiRpc c cfg).PublicApiRpc = if ¬(cfg.PublicApiRpc = TransportConfig.empty) then cfg.PublicApiRpc else c.PublicApiRpc := by
  unfold applyPublicApiRpc
  split_ifs <;> rfl

/-- The `PublicApiRpc` assignment step leaves `PrivateApiRpc` unchanged. -/
@[simp]
theorem applyPublicApiRpc_PrivateApiRpc (c cfg : Config) :
    (applyPublicApiRpc c cfg).PrivateApiRpc = c.PrivateApiRpc := by
  unfold applyPublicApiRpc
  split_ifs <;> rfl

/-- The `PublicApiRpc` assignment step leaves `HostLeaseTTLSec` unchanged. -/
@[simp]
theorem applyPublicApiRpc_HostLeaseTTLSec (c cfg : Config) :
    (applyPublicApiRpc c cfg).HostLeaseTTLSec = c.HostLeaseTTLSec := by
  unfold applyPublicApiRpc
  split_ifs <;> rfl

/-- The `PublicApiRpc` assignment step leaves `HostRegisterTimeoutSec` unchanged. -/
@[simp]
theorem applyPublicApiRpc_HostRegisterTimeoutSec (c cfg : Config) :
    (applyPublicApiRpc c cfg).HostRegisterTimeoutSec = c.HostRegisterTimeoutSec := by
  unfold applyPublicApiRpc
  split_ifs <;> rfl

/-- The `PrivateApiRpc` assignment step leaves `JournalsDir` unchanged. -/
@[simp]
theorem applyPrivateApiRpc_JournalsDir (c cfg : Config) :
    (applyPrivateApiRpc c cfg).JournalsDir = c.JournalsDir := by
  unfold applyPrivateApiRpc
  split_ifs <;> rfl

/-- The `PrivateApiRpc` assignment step leaves `HostHostId` unchanged. -/
@[simp]
theorem applyPrivateApiRpc_HostHostId (c cfg : Config) :
    (applyPrivateApiRpc c cfg).HostHostId = c.HostHostId := by
  unfold applyPrivateApiRpc
  split_ifs <;> rfl

/-- The `PrivateApiRpc` assignment step leaves `PublicApiRpc` unchanged. -/
@[simp]
theorem applyPrivateApiRpc_PublicApiRpc (c cfg : Config) :
    (applyPrivateApiRpc c cfg).PublicApiRpc = c.PublicApiRpc := by
  unfold applyPrivateApiRpc
  split_ifs <;> rfl

/-- Projection of the `PrivateApiRpc` assignment step at its own field. -/
@[simp]
theorem applyPrivateApiRpc_PrivateApiRpc (c cfg : Config) :
    (applyPrivateApiRpc c cfg).PrivateApiRpc = if ¬(cfg.PrivateApiRpc = TransportConfig.empty) then cfg.PrivateApiRpc else c.PrivateApiRpc := by
  unfold applyPrivateApiRpc
  split_ifs <;> rfl

/-- The `PrivateApiRpc` assignment step leaves `HostLeaseTTLSec` unchanged. -/
@[simp]
theorem applyPrivateApiRpc_HostLeaseTTLSec (c cfg : Config) :
    (applyPrivateApiRpc c cfg).HostLeaseTTLSec = c.HostLeaseTTLSec := by
  unfold applyPrivateApiRpc
  split_ifs <;> rfl

/-- The `PrivateApiRpc` assignment step leaves `HostRegisterTimeoutSec` unchanged. -/
@[simp]
theorem applyPrivateApiRpc_HostRegisterTimeoutSec (c cfg : Config) :
    (applyPrivateApiRpc c cfg).HostRegisterTimeoutSec = c.HostRegisterTimeoutSec := by
  unfold applyPrivateApiRpc
  split_ifs <;> rfl

/-- The `HostLeaseTTLSec` assignment step leaves `JournalsDir` unchanged. -/
@[simp]
theorem applyHostLeaseTTLSec_JournalsDir (c cfg : Config) :
    (applyHostLeaseTTLSec c cfg).JournalsDir = c.JournalsDir := by
  unfold applyHostLeaseTTLSec
  split_ifs <;> rfl

/-- The `HostLeaseTTLSec` assignment step leaves `HostHostId` unchanged. -/
@[simp]
theorem applyHostLeaseTTLSec_HostHostId (c cfg : Config) :
    (applyHostLeaseTTLSec c cfg).HostHostId = c.HostHostId := by
  unfold applyHostLeaseTTLSec
  split_ifs <;> rfl

/-- The `HostLeaseTTLSec` assignment step leaves `PublicApiRpc` unchanged. -/
@[simp]
theorem applyHostLeaseTTLSec_PublicApiRpc (c cfg : Config) :
    (applyHostLeaseTTLSec c cfg).PublicApiRpc = c.PublicApiRpc := by
  unfold applyHostLeaseTTLSec
  split_ifs <;> rfl

/-- The `HostLeaseTTLSec` assignment step leaves `PrivateApiRpc` unchanged. -/
@[simp]
theorem applyHostLeaseTTLSec_PrivateApiRpc (c cfg : Config) :
    (applyHostLeaseTTLSec c cfg).PrivateApiRpc = c.PrivateApiRpc := by
  unfold applyHostLeaseTTLSec
  split_ifs <;> rfl

/-- Projection of the `HostLeaseTTLSec` assignment step at its own field. -/
@[simp]
theorem applyHostLeaseTTLSec_HostLeaseTTLSec (c cfg : Config) :
    (applyHostLeaseTTLSec c cfg).HostLeaseTTLSec = if cfg.HostLeaseTTLSec > 0 then cfg.HostLeaseTTLSec else c.HostLeaseTTLSec := by
  unfold applyHostLeaseTTLSec
  split_ifs <;> rfl

/-- The `HostLeaseTTLSec` assignment step leaves `HostRegisterTimeoutSec` unchanged. -/
@[simp]
theorem applyHostLeaseTTLSec_HostRegisterTimeoutSec (c cfg : Config) :
    (applyHostLeaseTTLSec c cfg).HostRegisterTimeoutSec = c.HostRegisterTimeoutSec := by
  unfold applyHostLeaseTTLSec
  split_ifs <;> rfl

/-- The `HostRegisterTimeoutSec` assignment step leaves `JournalsDir` unchanged. -/
@[simp]
theorem applyHostRegisterTimeoutSec_JournalsDir (c cfg : Config) :
    (applyHostRegisterTimeoutSec c cfg).JournalsDir = c.JournalsDir := by
  unfold applyHostRegisterTimeoutSec
  split_ifs <;> rfl

/-- The `HostRegisterTimeoutSec` assignment step leaves `HostHostId` unchanged. -/
@[simp]
theorem applyHostRegisterTimeoutSec_HostHostId (c cfg : Config) :
    (applyHostRegisterTimeoutSec c cfg).HostHostId = c.HostHostId := by
  unfold applyHostRegisterTimeoutSec
  split_ifs <;> rfl

/-- The `HostRegisterTimeoutSec` assignment step leaves `PublicApiRpc` unchanged. -/
@[simp]
theorem applyHostRegisterTimeoutSec_PublicApiRpc (c cfg : Config) :
    (applyHostRegisterTimeoutSec c cfg).PublicApiRpc = c.PublicApiRpc := by
  unfold applyHostRegisterTimeoutSec
  split_ifs <;> rfl

/-- The `HostRegisterTimeoutSec` assignment step leaves `PrivateApiRpc` unchanged. -/
@[simp]
theorem applyHostRegisterTimeoutSec_PrivateApiRpc (c cfg : Config) :
    (applyHostRegisterTimeoutSec c cfg).PrivateApiRpc = c.PrivateApiRpc := by
  unfold applyHostRegisterTimeoutSec
  split_ifs <;> rfl

/-- The `HostRegisterTimeoutSec` assignment step leaves `HostLeaseTTLSec` unchanged. -/
@[simp]
theorem applyHostRegisterTimeoutSec_HostLeaseTTLSec (c cfg : Config) :
    (applyHostRegisterTimeoutSec c cfg).HostLeaseTTLSec = c.HostLeaseTTLSec := by
  unfold applyHostRegisterTimeoutSec
  split_ifs <;> rfl

/-- Projection of the `HostRegisterTimeoutSec` assignment step at its own field. -/
@[simp]
theorem applyHostRegisterTimeoutSec_HostRegisterTimeoutSec (c cfg : Config) :
    (applyHostRegisterTimeoutSec c cfg).HostRegisterTimeoutSec = if cfg.HostRegisterTimeoutSec > 0 then cfg.HostRegisterTimeoutSec else c.HostRegisterTimeoutSec := by
  unfold applyHostRegisterTimeoutSec
  split_ifs <;> rfl

/-- Normal form of `Apply` on a non-nil source: each field of the
result is selected independently by that field's own override test. -/
theorem apply_some (d s : Config) :
    d.Apply (some s) =
      { JournalsDir := if s.JournalsDir.length > 0 then s.JournalsDir else d.JournalsDir
        HostHostId := if s.HostHostId > 0 then s.HostHostId else d.HostHostId
        HostLeaseTTLSec := if s.HostLeaseTTLSec > 0 then s.HostLeaseTTLSec else d.HostLeaseTTLSec
        HostRegisterTimeoutSec := if s.HostRegisterTimeoutSec > 0 then s.HostRegisterTimeoutSec else d.HostRegisterTimeoutSec
        PublicApiRpc := if ¬(s.PublicApiRpc = TransportConfig.empty) then s.PublicApiRpc else d.PublicApiRpc
        PrivateApiRpc := if ¬(s.PrivateApiRpc = TransportConfig.empty) then s.PrivateApiRpc else d.PrivateApiRpc } := by
  ext <;> simp [Config.Apply]

/-- Pointer-level rendering of the body of `Apply` for the frame-effect
question: the destination and the (non-nil) source are pointers into a
heap, possibly aliased. Each conditional assignment of the Go body reads
the source through its pointer and writes one destination field through
the destination pointer, in source order. `heapWrite` is a single
pointer store. -/
def heapWrite (h : Nat → Config) (p : Nat) (v : Config) : Nat → Config :=
  fun q => if q = p then v else h q

/-- First conditional assignment of the `Apply` body, on the heap: read
the source's `JournalsDir` through `pcfg`, and when non-empty store the
updated destination through `pc`. -/
def heapApplyJournalsDir (pc pcfg : Nat) (h : Nat → Config) : Nat → Config :=
  if (h pcfg).JournalsDir.length > 0 then heapWrite h pc { h pc with JournalsDir := (h pcfg).JournalsDir } else h

/-- Second conditional assignment of the `Apply` body, on the heap. -/
def heapApplyHostHostId (pc pcfg : Nat) (h : Nat → Config) : Nat → Config :=
  if (h pcfg).HostHostId > 0 then heapWrite h pc { h pc with HostHostId := (h pcfg).HostHostId } else h

/-- Third conditional assignment of the `Apply` body, on the heap. -/
def heapApplyPublicApiRpc (pc pcfg : Nat) (h : Nat → Config) : Nat → Config :=
  if ¬((h pcfg).PublicApiRpc = TransportConfig.empty) then heapWrite h pc { h pc with PublicApiRpc := (h pcfg).PublicApiRpc } else h

/-- Fourth conditional assignment of the `Apply` body, on the heap. -/
def heapApplyPrivateApiRpc (pc pcfg : Nat) (h : Nat → Config) : Nat → Config :=
  if ¬((h pcfg).PrivateApiRpc = TransportConfig.empty) then heapWrite h pc { h pc with PrivateApiRpc := (h pcfg).PrivateApiRpc } else h

/-- Fifth conditional assignment of the `Apply` body, on the heap. -/
def heapApplyHostLeaseTTLSec (pc pcfg : Nat) (h : Nat → Config) : Nat → Config :=
  if (h pcfg).HostLeaseTTLSec > 0 then heapWrite h pc { h pc with HostLeaseTTLSec := (h pcfg).HostLeaseTTLSec } else h

/-- Sixth conditional assignment of the `Apply` body, on the heap. -/
def heapApplyHostRegisterTimeoutSec (pc pcfg : Nat) (h : Nat → Config) : Nat → Config :=
  if (h pcfg).HostRegisterTimeoutSec > 0 then heapWrite h pc { h pc with HostRegisterTimeoutSec := (h pcfg).HostRegisterTimeoutSec } else h

/-- The body of `Apply` executed on a heap, `pc` the destination pointer
and `pcfg` the source pointer, six stores in source order; each
condition is re-read from the current heap, as Go does. -/
def Config.ApplyHeap (h : Nat → Config) (pc pcfg : Nat) : Nat → Config :=
  heapApplyHostRegisterTimeoutSec pc pcfg
    (heapApplyHostLeaseTTLSec pc pcfg
      (heapApplyPrivateApiRpc pc pcfg
        (heapApplyPublicApiRpc pc pcfg
          (heapApplyHostHostId pc pcfg
            (heapApplyJournalsDir pc pcfg h)))))

/-- Severity of a diagnostic emitted by the loader. -/
inductive LogLevel where
  | warn
  | fatal
  | info
  deriving DecidableEq, Repr

/-- The unrecoverable error raised (`panic(errors.Wrapf(err, ...))`) by
`ReadConfigFromFile`: the original underlying cause together with the
wrapping message. -/
structure ConfigError where
  cause : String
  msg : String
  deriving DecidableEq, Repr

/-- Modelled from the spec: the file-system collaborator used by the
loader (Go's `os.Stat` existence check and `ioutil.ReadFile`, external to
this repository). `statExists` says whether the path exists; `readFile`
returns the file's bytes or the underlying read error. -/
structure FileSys where
  statExists : String → Bool
  readFile : String → Except String String

/-- `func ReadConfigFromFile(filename string) *Config`, with the
file system and the structured-format decoder (`json.Unmarshal`,
external) passed explicitly, and the emitted diagnostics returned
alongside the result. The nil-pointer results are `Except.ok none`; the
fatal-log-then-panic paths are `Except.error`. -/
def ReadConfigFromFile (fs : FileSys) (jsonUnmarshal : String → Except String Config)
    (filename : String) : List (LogLevel × String) × Except ConfigError (Option Config) :=
  if filename = "" then
    ([], Except.ok none)
  else if fs.statExists filename = false then
    ([(LogLevel.warn, "There is no file " ++ filename ++ " for reading logrange config, will use default configuration.")],
      Except.ok none)
  else
    match fs.readFile filename with
    | Except.error e =>
        ([(LogLevel.fatal, "Could not read configuration file " ++ filename)],
          Except.error { cause := e, msg := "Could not read data from config file " ++ filename })
    | Except.ok cfgData =>
        match jsonUnmarshal cfgData with
        | Except.error e =>
            ([(LogLevel.fatal, "Could not unmarshal data from " ++ filename)],
              Except.error { cause := e, msg := "Could not unmarshal json data from config file " ++ filename })
        | Except.ok c =>
            ([(LogLevel.info, "Configuration read from " ++ filename)],
              Except.ok (some c))

/-- C5: the default factory is deterministic (in this pure model it is a
single constant value, so any two calls agree) and returns
`HostLeaseTTLSec = 5`, `JournalsDir = "/opt/logrange/db/"`, public RPC
listen address `127.0.0.1:9966`, private RPC listen address
`127.0.0.1:9967`, `HostHostId = 0` and `HostRegisterTimeoutSec = 0`. -/
theorem getDefaultConfig_values :
    GetDefaultConfig.HostLeaseTTLSec = 5 ∧
    GetDefaultConfig.JournalsDir = "/opt/logrange/db/" ∧
    GetDefaultConfig.PublicApiRpc.ListenAddr = "127.0.0.1:9966" ∧
    GetDefaultConfig.PrivateApiRpc.ListenAddr = "127.0.0.1:9967" ∧
    GetDefaultConfig.HostHostId = 0 ∧
    GetDefaultConfig.HostRegisterTimeoutSec = 0 ∧
    GetDefaultConfig =
      { JournalsDir := "/opt/logrange/db/"
        HostHostId := 0
        HostLeaseTTLSec := 5
        HostRegisterTimeoutSec := 0
        PublicApiRpc := { ListenAddr := "127.0.0.1:9966", TlsEnabled := false }
        PrivateApiRpc := { ListenAddr := "127.0.0.1:9967", TlsEnabled := false } } :=
  ⟨rfl, rfl, rfl, rfl, rfl, rfl, rfl⟩

/-- The `int64` wrap is the identity on every value that fits in
`int64`, i.e. between `-2^63` and `2^63 - 1`. -/
theorem wrapInt64_eq_self (n : Int)
    (h1 : -9223372036854775808 ≤ n) (h2 : n < 9223372036854775808) :
    wrapInt64 n = n := by
  unfold wrapInt64
  have h3 : (0 : Int) ≤ n + 9223372036854775808 := by omega
  have h4 : n + 9223372036854775808 < 18446744073709551616 := by omega
  rw [Int.emod_eq_of_lt h3 h4]
  omega

/-- C9, counterexample to the claim as stated: at
`HostLeaseTTLSec = 10^10` the Go product
`time.Duration(10^10) * time.Second` overflows `int64` and wraps to the
negative duration `10^19 - 2^64`, so `LeaseTTL` is not a duration equal
to `HostLeaseTTLSec` seconds there. -/
theorem registry_accessors_counterexample :
    ({ JournalsDir := "", HostHostId := 0, HostLeaseTTLSec := 10000000000,
       HostRegisterTimeoutSec := 0, PublicApiRpc := TransportConfig.empty,
       PrivateApiRpc := TransportConfig.empty } : Config).LeaseTTL ≠
      10000000000 * 1000000000 ∧
    ({ JournalsDir := "", HostHostId := 0, HostLeaseTTLSec := 10000000000,
       HostRegisterTimeoutSec := 0, PublicApiRpc := TransportConfig.empty,
       PrivateApiRpc := TransportConfig.empty } : Config).LeaseTTL =
      -8446744073709551616 := by
  constructor <;> decide

/-- C9, amended: `HostId` returns `HostHostId` verbatim; `LeaseTTL` and
`RegisterTimeout` return the `...Sec` field times `time.Second` wrapped
into `int64`, which equals the field's value in seconds (as
nanoseconds) whenever that product fits in `int64`; a zero
`HostRegisterTimeoutSec` yields a zero duration. -/
theorem registry_accessors (c : Config) :
    c.HostId = c.HostHostId ∧
    (-9223372036854775808 ≤ c.HostLeaseTTLSec * 1000000000 →
      c.HostLeaseTTLSec * 1000000000 < 9223372036854775808 →
      c.LeaseTTL = c.HostLeaseTTLSec * 1000000000) ∧
    (-9223372036854775808 ≤ c.HostRegisterTimeoutSec * 1000000000 →
      c.HostRegisterTimeoutSec * 1000000000 < 9223372036854775808 →
      c.RegisterTimeout = c.HostRegisterTimeoutSec * 1000000000) ∧
    (c.HostRegisterTimeoutSec = 0 → c.RegisterTimeout = 0) := by
  refine ⟨rfl, fun h1 h2 => ?_, fun h1 h2 => ?_, fun h => ?_⟩
  · exact wrapInt64_eq_self _ h1 h2
  · exact wrapInt64_eq_self _ h1 h2
  · simp only [Config.RegisterTimeout, timeSecond, h]
    decide

/-- Witness for C9 at the default configuration: `LeaseTTL` is
`5 * 10^9` nanoseconds (in `int64` range) and `RegisterTimeout` is
zero. -/
theorem registry_accessors_witness :
    GetDefaultConfig.HostId = 0 ∧
    GetDefaultConfig.LeaseTTL = 5000000000 ∧
    GetDefaultConfig.RegisterTimeout = 0 := by
  have h := registry_accessors GetDefaultConfig
  exact ⟨h.1, h.2.1 (by decide) (by decide), h.2.2.2 rfl⟩

/-- C8: `Localhost` returns a descriptor whose RPC address is the
private API listen address; whenever the two listen addresses differ it
is therefore not the public one. -/
theorem localhost_private_addr (c : Config) :
    (c.Localhost).RpcAddr = c.PrivateApiRpc.ListenAddr ∧
    (c.PrivateApiRpc.ListenAddr ≠ c.PublicApiRpc.ListenAddr →
      (c.Localhost).RpcAddr ≠ c.PublicApiRpc.ListenAddr) :=
  ⟨rfl, fun h => h⟩

/-- Witness for C8 at the config of the spec's concrete example:
private `10.0.0.1:9967`, public `10.0.0.1:9966`. -/
theorem localhost_private_addr_witness :
    (({ JournalsDir := "", HostHostId := 0, HostLeaseTTLSec := 0,
        HostRegisterTimeoutSec := 0,
        PublicApiRpc := { ListenAddr := "10.0.0.1:9966", TlsEnabled := false },
        PrivateApiRpc := { ListenAddr := "10.0.0.1:9967", TlsEnabled := false } } :
          Config).Localhost).RpcAddr = "10.0.0.1:9967" ∧
    (({ JournalsDir := "", HostHostId := 0, HostLeaseTTLSec := 0,
        HostRegisterTimeoutSec := 0,
        PublicApiRpc := { ListenAddr := "10.0.0.1:9966", TlsEnabled := false },
        PrivateApiRpc := { ListenAddr := "10.0.0.1:9967", TlsEnabled := false } } :
          Config).Localhost).RpcAddr ≠ "10.0.0.1:9966" := by
  have h := localhost_private_addr
    { JournalsDir := "", HostHostId := 0, HostLeaseTTLSec := 0,
      HostRegisterTimeoutSec := 0,
      PublicApiRpc := { ListenAddr := "10.0.0.1:9966", TlsEnabled := false },
      PrivateApiRpc := { ListenAddr := "10.0.0.1:9967", TlsEnabled := false } }
  exact ⟨h.1, h.2 (by decide)⟩

/-- C4: a nil source pointer is a no-op, and a source whose every field
is zero-valued for its type leaves the destination unchanged. -/
theorem apply_nil_and_zero_identity (d s : Config)
    (h1 : s.JournalsDir = "") (h2 : s.HostHostId = 0)
    (h3 : s.HostLeaseTTLSec = 0) (h4 : s.HostRegisterTimeoutSec = 0)
    (h5 : s.PublicApiRpc = TransportConfig.empty)
    (h6 : s.PrivateApiRpc = TransportConfig.empty) :
    d.Apply none = d ∧ d.Apply (some s) = d := by
  refine ⟨rfl, ?_⟩
  rw [apply_some]
  ext <;> simp [h1, h2, h3, h4, h5, h6]

/-- Witness for C4: the all-zero source applied to the default config. -/
theorem apply_nil_and_zero_identity_witness :
    GetDefaultConfig.Apply none = GetDefaultConfig ∧
    GetDefaultConfig.Apply
      (some { JournalsDir := "", HostHostId := 0, HostLeaseTTLSec := 0,
              HostRegisterTimeoutSec := 0,
              PublicApiRpc := TransportConfig.empty,
              PrivateApiRpc := TransportConfig.empty }) = GetDefaultConfig :=
  apply_nil_and_zero_identity GetDefaultConfig _ rfl rfl rfl rfl rfl rfl

/-- C2: `Apply` replaces the destination transport struct (public and
private alike) by the source's entire struct exactly when the source
struct is not deep-equal to the all-zero struct, and leaves it untouched
when the source struct is all-zero; there is no sub-field-level merge. -/
theorem apply_transport_whole_struct (d s : Config) :
    (d.Apply (some s)).PublicApiRpc =
      (if s.PublicApiRpc = TransportConfig.empty then d.PublicApiRpc
        else s.PublicApiRpc) ∧
    (d.Apply (some s)).PrivateApiRpc =
      (if s.PrivateApiRpc = TransportConfig.empty then d.PrivateApiRpc
        else s.PrivateApiRpc) := by
  rw [apply_some]
  constructor <;> simp

/-- C3: `Apply` is idempotent, a nil source included: applying the same
source twice gives the same result as applying it once. -/
theorem apply_idempotent (d : Config) (s : Option Config) :
    (d.Apply s).Apply s = d.Apply s := by
  cases s with
  | none => rfl
  | some s =>
    rw [apply_some, apply_some]
    ext <;> simp
    all_goals intros
    all_goals simp_all

/-- C1: on a source whose only non-zero field is one scalar field, the
merge leaves every field of the destination unchanged except that one,
which takes the source's value; the string field overrides exactly when
its length is positive and each integer field exactly when its value is
positive (so a zero or negative source value changes nothing at all). -/
theorem apply_single_scalar_override (d s : Config)
    (hPub : s.PublicApiRpc = TransportConfig.empty)
    (hPriv : s.PrivateApiRpc = TransportConfig.empty) :
    (s.HostHostId = 0 → s.HostLeaseTTLSec = 0 → s.HostRegisterTimeoutSec = 0 →
      d.Apply (some s) =
        if s.JournalsDir.length > 0 then { d with JournalsDir := s.JournalsDir } else d) ∧
    (s.JournalsDir = "" → s.HostLeaseTTLSec = 0 → s.HostRegisterTimeoutSec = 0 →
      d.Apply (some s) =
        if s.HostHostId > 0 then { d with HostHostId := s.HostHostId } else d) ∧
    (s.JournalsDir = "" → s.HostHostId = 0 → s.HostRegisterTimeoutSec = 0 →
      d.Apply (some s) =
        if s.HostLeaseTTLSec > 0 then { d with HostLeaseTTLSec := s.HostLeaseTTLSec } else d) ∧
    (s.JournalsDir = "" → s.HostHostId = 0 → s.HostLeaseTTLSec = 0 →
      d.Apply (some s) =
        if s.HostRegisterTimeoutSec > 0 then { d with HostRegisterTimeoutSec := s.HostRegisterTimeoutSec } else d) := by
  refine ⟨fun hb hc hd => ?_, fun ha hc hd => ?_, fun ha hb hd => ?_, fun ha hb hc => ?_⟩ <;>
    · rw [apply_some]
      ext <;> split_ifs <;> simp_all

/-- Witness for C1: overriding only `JournalsDir` of the default config
with `/var/data`, per the spec's concrete example. -/
theorem apply_single_scalar_override_witness :
    GetDefaultConfig.Apply
      (some { JournalsDir := "/var/data", HostHostId := 0, HostLeaseTTLSec := 0,
              HostRegisterTimeoutSec := 0,
              PublicApiRpc := TransportConfig.empty,
              PrivateApiRpc := TransportConfig.empty }) =
      { GetDefaultConfig with JournalsDir := "/var/data" } := by
  have h := (apply_single_scalar_override GetDefaultConfig
    { JournalsDir := "/var/data", HostHostId := 0, HostLeaseTTLSec := 0,
      HostRegisterTimeoutSec := 0,
      PublicApiRpc := TransportConfig.empty,
      PrivateApiRpc := TransportConfig.empty } rfl rfl).1 rfl rfl rfl
  simpa using h

/-- Each heap step preserves the heap at the source pointer, aliasing
included: when the pointers alias, the store writes back the value the
field already has. -/
theorem heapApplyJournalsDir_at_src (pc pcfg : Nat) (h : Nat → Config) :
    heapApplyJournalsDir pc pcfg h pcfg = h pcfg := by
  simp only [heapApplyJournalsDir, ite_apply, heapWrite]
  split_ifs with h1 h2
  · subst h2; rfl
  · rfl
  · rfl

/-- The `HostHostId` heap store preserves the source pointer's value. -/
theorem heapApplyHostHostId_at_src (pc pcfg : Nat) (h : Nat → Config) :
    heapApplyHostHostId pc pcfg h pcfg = h pcfg := by
  simp only [heapApplyHostHostId, ite_apply, heapWrite]
  split_ifs with h1 h2
  · subst h2; rfl
  · rfl
  · rfl

/-- The `PublicApiRpc` heap store preserves the source pointer's value. -/
theorem heapApplyPublicApiRpc_at_src (pc pcfg : Nat) (h : Nat → Config) :
    heapApplyPublicApiRpc pc pcfg h pcfg = h pcfg := by
  simp only [heapApplyPublicApiRpc, ite_apply, heapWrite]
  split_ifs with h1 h2
  · rfl
  · subst h2; rfl
  · rfl

/-- The `PrivateApiRpc` heap store preserves the source pointer's value. -/
theorem heapApplyPrivateApiRpc_at_src (pc pcfg : Nat) (h : Nat → Config) :
    heapApplyPrivateApiRpc pc pcfg h pcfg = h pcfg := by
  simp only [heapApplyPrivateApiRpc, ite_apply, heapWrite]
  split_ifs with h1 h2
  · rfl
  · subst h2; rfl
  · rfl

/-- The `HostLeaseTTLSec` heap store preserves the source pointer's value. -/
theorem heapApplyHostLeaseTTLSec_at_src (pc pcfg : Nat) (h : Nat → Config) :
    heapApplyHostLeaseTTLSec pc pcfg h pcfg = h pcfg := by
  simp only [heapApplyHostLeaseTTLSec, ite_apply, heapWrite]
  split_ifs with h1 h2
  · subst h2; rfl
  · rfl
  · rfl

/-- The `HostRegisterTimeoutSec` heap store preserves the source
pointer's value. -/
theorem heapApplyHostRegisterTimeoutSec_at_src (pc pcfg : Nat) (h : Nat → Config) :
    heapApplyHostRegisterTimeoutSec pc pcfg h pcfg = h pcfg := by
  simp only [heapApplyHostRegisterTimeoutSec, ite_apply, heapWrite]
  split_ifs with h1 h2
  · subst h2; rfl
  · rfl
  · rfl

/-- Each heap step acts on the destination pointer exactly as the
corresponding functional step acts on the pointed-to configs. -/
theorem heapApplyJournalsDir_at_dst (pc pcfg : Nat) (h : Nat → Config) :
    heapApplyJournalsDir pc pcfg h pc = applyJournalsDir (h pc) (h pcfg) := by
  simp only [heapApplyJournalsDir, applyJournalsDir, ite_apply, heapWrite]
  split_ifs <;> simp_all

/-- The `HostHostId` heap store agrees with `applyHostHostId` at the
destination pointer. -/
theorem heapApplyHostHostId_at_dst (pc pcfg : Nat) (h : Nat → Config) :
    heapApplyHostHostId pc pcfg h pc = applyHostHostId (h pc) (h pcfg) := by
  simp only [heapApplyHostHostId, applyHostHostId, ite_apply, heapWrite]
  split_ifs <;> simp_all

/-- The `PublicApiRpc` heap store agrees with `applyPublicApiRpc` at the
destination pointer. -/
theorem heapApplyPublicApiRpc_at_dst (pc pcfg : Nat) (h : Nat → Config) :
    heapApplyPublicApiRpc pc pcfg h pc = applyPublicApiRpc (h pc) (h pcfg) := by
  simp only [heapApplyPublicApiRpc, applyPublicApiRpc, ite_apply, heapWrite]
  split_ifs <;> simp_all

/-- The `PrivateApiRpc` heap store agrees with `applyPrivateApiRpc` at
the destination pointer. -/
theorem heapApplyPrivateApiRpc_at_dst (pc pcfg : Nat) (h : Nat → Config) :
    heapApplyPrivateApiRpc pc pcfg h pc = applyPrivateApiRpc (h pc) (h pcfg) := by
  simp only [heapApplyPrivateApiRpc, applyPrivateApiRpc, ite_apply, heapWrite]
  split_ifs <;> simp_all

/-- The `HostLeaseTTLSec` heap store agrees with `applyHostLeaseTTLSec`
at the destination pointer. -/
theorem heapApplyHostLeaseTTLSec_at_dst (pc pcfg : Nat) (h : Nat → Config) :
    heapApplyHostLeaseTTLSec pc pcfg h pc = applyHostLeaseTTLSec (h pc) (h pcfg) := by
  simp only [heapApplyHostLeaseTTLSec, applyHostLeaseTTLSec, ite_apply, heapWrite]
  split_ifs <;> simp_all

/-- The `HostRegisterTimeoutSec` heap store agrees with
`applyHostRegisterTimeoutSec` at the destination pointer. -/
theorem heapApplyHostRegisterTimeoutSec_at_dst (pc pcfg : Nat) (h : Nat → Config) :
    heapApplyHostRegisterTimeoutSec pc pcfg h pc = applyHostRegisterTimeoutSec (h pc) (h pcfg) := by
  simp only [heapApplyHostRegisterTimeoutSec, applyHostRegisterTimeoutSec, ite_apply, heapWrite]
  split_ifs <;> simp_all

/-- Sanity: the heap rendering of the `Apply` body computes, at the
destination pointer, exactly the functional merge of the two pointed-to
configurations (aliasing included). -/
theorem applyHeap_agrees_with_apply (h : Nat → Config) (pc pcfg : Nat) :
    Config.ApplyHeap h pc pcfg pc = (h pc).Apply (some (h pcfg)) := by
  simp only [Config.ApplyHeap, Config.Apply,
    heapApplyJournalsDir_at_dst, heapApplyHostHostId_at_dst,
    heapApplyPublicApiRpc_at_dst, heapApplyPrivateApiRpc_at_dst,
    heapApplyHostLeaseTTLSec_at_dst, heapApplyHostRegisterTimeoutSec_at_dst,
    heapApplyJournalsDir_at_src, heapApplyHostHostId_at_src,
    heapApplyPublicApiRpc_at_src, heapApplyPrivateApiRpc_at_src,
    heapApplyHostLeaseTTLSec_at_src, heapApplyHostRegisterTimeoutSec_at_src]

/-- C10: `Apply` never modifies its source argument: running the body of
`Apply` on a heap, with any destination and source pointers (aliased or
not), leaves the config at the source pointer exactly as it was. -/
theorem apply_preserves_source (h : Nat → Config) (pc pcfg : Nat) :
    Config.ApplyHeap h pc pcfg pcfg = h pcfg := by
  simp only [Config.ApplyHeap,
    heapApplyJournalsDir_at_src, heapApplyHostHostId_at_src,
    heapApplyPublicApiRpc_at_src, heapApplyPrivateApiRpc_at_src,
    heapApplyHostLeaseTTLSec_at_src, heapApplyHostRegisterTimeoutSec_at_src]

/-- C6: an empty path yields an absent result with no error and no I/O
(the result does not depend on the file system at all), and a path that
does not exist yields an absent result with no error, only a
warning-level diagnostic. -/
theorem readConfig_absent_paths (fs : FileSys)
    (jsonUnmarshal : String → Except String Config) (f : String) :
    ReadConfigFromFile fs jsonUnmarshal "" = ([], Except.ok none) ∧
    (f ≠ "" → fs.statExists f = false →
      ReadConfigFromFile fs jsonUnmarshal f =
        ([(LogLevel.warn, "There is no file " ++ f ++ " for reading logrange config, will use default configuration.")],
          Except.ok none)) := by
  constructor
  · rfl
  · intro hf hstat
    simp [ReadConfigFromFile, hf, hstat]

/-- Witness for C6: a file system where nothing exists, and the path
`missing.json`. -/
theorem readConfig_absent_paths_witness :
    ReadConfigFromFile ⟨fun _ => false, fun _ => Except.error "boom"⟩
        (fun _ => Except.error "badjson") "" = ([], Except.ok none) ∧
    ReadConfigFromFile ⟨fun _ => false, fun _ => Except.error "boom"⟩
        (fun _ => Except.error "badjson") "missing.json" =
      ([(LogLevel.warn, "There is no file missing.json for reading logrange config, will use default configuration.")],
        Except.ok none) := by
  have h := readConfig_absent_paths ⟨fun _ => false, fun _ => Except.error "boom"⟩
    (fun _ => Except.error "badjson") "missing.json"
  exact ⟨h.1, h.2 (by decide) rfl⟩

/-- C7: when the path exists but the file cannot be read, or its content
cannot be parsed, the loader raises an unrecoverable error (never a
config, never an absent result), and the error carries the underlying
cause together with a message naming the failing path. -/
theorem readConfig_fatal_errors (fs : FileSys)
    (jsonUnmarshal : String → Except String Config) (f : String)
    (hf : f ≠ "") (hstat : fs.statExists f = true) :
    (∀ e, fs.readFile f = Except.error e →
      ReadConfigFromFile fs jsonUnmarshal f =
        ([(LogLevel.fatal, "Could not read configuration file " ++ f)],
          Except.error { cause := e, msg := "Could not read data from config file " ++ f })) ∧
    (∀ data e, fs.readFile f = Except.ok data → jsonUnmarshal data = Except.error e →
      ReadConfigFromFile fs jsonUnmarshal f =
        ([(LogLevel.fatal, "Could not unmarshal data from " ++ f)],
          Except.error { cause := e, msg := "Could not unmarshal json data from config file " ++ f })) := by
  constructor
  · intro e he
    simp [ReadConfigFromFile, hf, hstat, he]
  · intro data e hd he
    simp [ReadConfigFromFile, hf, hstat, hd, he]

/-- Witness for C7: a file system whose read fails with cause `boom`,
and one whose content `nonsense` fails to parse with cause `badjson`,
both at path `cfg.json`. -/
theorem readConfig_fatal_errors_witness :
    ReadConfigFromFile ⟨fun _ => true, fun _ => Except.error "boom"⟩
        (fun _ => Except.error "badjson") "cfg.json" =
      ([(LogLevel.fatal, "Could not read configuration file cfg.json")],
        Except.error { cause := "boom", msg := "Could not read data from config file cfg.json" }) ∧
    ReadConfigFromFile ⟨fun _ => true, fun _ => Except.ok "nonsense"⟩
        (fun _ => Except.error "badjson") "cfg.json" =
      ([(LogLevel.fatal, "Could not unmarshal data from cfg.json")],
        Except.error { cause := "badjson", msg := "Could not unmarshal json data from config file cfg.json" }) := by
  constructor
  · exact (readConfig_fatal_errors ⟨fun _ => true, fun _ => Except.error "boom"⟩
      (fun _ => Except.error "badjson") "cfg.json" (by decide) rfl).1 "boom" rfl
  · exact (readConfig_fatal_errors ⟨fun _ => true, fun _ => Except.ok "nonsense"⟩
      (fun _ => Except.error "badjson") "cfg.json" (by decide) rfl).2 "nonsense" "badjson" rfl rfl

end Logrange
